import Mathlib

/-!
Shallow embedding of the win-msgbox crate: the Win32 MessageBox style and
result constants, the seven button-set types with their result-code
mappings, the Icon / Modal / DefaultButton enumerations, and the two
builder families (owning and raw) with their show operation.  The native
MessageBoxW call and GetLastError are modelled as explicit function and
value parameters of show.
-/

/-! Style constants (windows-sys, MESSAGEBOX_STYLE is u32). -/

def MB_OK : Nat := 0x00000000
def MB_OKCANCEL : Nat := 0x00000001
def MB_ABORTRETRYIGNORE : Nat := 0x00000002
def MB_YESNOCANCEL : Nat := 0x00000003
def MB_YESNO : Nat := 0x00000004
def MB_RETRYCANCEL : Nat := 0x00000005
def MB_CANCELTRYCONTINUE : Nat := 0x00000006
def MB_ICONHAND : Nat := 0x00000010
def MB_ICONQUESTION : Nat := 0x00000020
def MB_ICONEXCLAMATION : Nat := 0x00000030
def MB_ICONASTERISK : Nat := 0x00000040
def MB_ICONWARNING : Nat := MB_ICONEXCLAMATION
def MB_ICONERROR : Nat := MB_ICONHAND
def MB_ICONINFORMATION : Nat := MB_ICONASTERISK
def MB_ICONSTOP : Nat := MB_ICONHAND
def MB_DEFBUTTON1 : Nat := 0x00000000
def MB_DEFBUTTON2 : Nat := 0x00000100
def MB_DEFBUTTON3 : Nat := 0x00000200
def MB_DEFBUTTON4 : Nat := 0x00000300
def MB_APPLMODAL : Nat := 0x00000000
def MB_SYSTEMMODAL : Nat := 0x00001000
def MB_TASKMODAL : Nat := 0x00002000
def MB_HELP : Nat := 0x00004000
def MB_SETFOREGROUND : Nat := 0x00010000
def MB_DEFAULT_DESKTOP_ONLY : Nat := 0x00020000
def MB_TOPMOST : Nat := 0x00040000
def MB_RIGHT : Nat := 0x00080000
def MB_RTLREADING : Nat := 0x00100000
def MB_SERVICE_NOTIFICATION : Nat := 0x00200000

/-! Result constants (windows-sys, MESSAGEBOX_RESULT is i32). -/

def IDOK : Int := 1
def IDCANCEL : Int := 2
def IDABORT : Int := 3
def IDRETRY : Int := 4
def IDIGNORE : Int := 5
def IDYES : Int := 6
def IDNO : Int := 7
def IDTRYAGAIN : Int := 10
def IDCONTINUE : Int := 11

/-! The seven button-set types (src/okay.rs and friends).  Each carries a
result-code conversion fromResult, the translation of its From
MESSAGEBOX_RESULT impl, where the Rust wildcard arm becomes the final
else branch. -/

/-- One push button, OK (src/okay.rs). -/
inductive Okay where
  | mk
deriving DecidableEq

def Okay.fromResult (_ : Int) : Okay := Okay.mk

/-- Two push buttons, OK and Cancel (src/okay_cancel.rs). -/
inductive OkayCancel where
  | Okay
  | Cancel
deriving DecidableEq

def OkayCancel.fromResult (value : Int) : OkayCancel :=
  if value = IDOK then OkayCancel.Okay else OkayCancel.Cancel

/-- Three push buttons, Abort, Retry and Ignore (src/abort_retry_ignore.rs). -/
inductive AbortRetryIgnore where
  | Abort
  | Retry
  | Ignore
deriving DecidableEq

def AbortRetryIgnore.fromResult (value : Int) : AbortRetryIgnore :=
  if value = IDABORT then AbortRetryIgnore.Abort
  else if value = IDRETRY then AbortRetryIgnore.Retry
  else AbortRetryIgnore.Ignore

/-- Three push buttons, Cancel, Try Again and Continue
(src/cancel_try_again_continue.rs). -/
inductive CancelTryAgainContinue where
  | Cancel
  | TryAgain
  | Continue
deriving DecidableEq

def CancelTryAgainContinue.fromResult (value : Int) : CancelTryAgainContinue :=
  if value = IDTRYAGAIN then CancelTryAgainContinue.TryAgain
  else if value = IDCONTINUE then CancelTryAgainContinue.Continue
  else CancelTryAgainContinue.Cancel

/-- Two push buttons, Retry and Cancel (src/retry_cancel.rs). -/
inductive RetryCancel where
  | Retry
  | Cancel
deriving DecidableEq

def RetryCancel.fromResult (value : Int) : RetryCancel :=
  if value = IDRETRY then RetryCancel.Retry else RetryCancel.Cancel

/-- Two push buttons, Yes and No (src/yes_no.rs). -/
inductive YesNo where
  | Yes
  | No
deriving DecidableEq

def YesNo.fromResult (value : Int) : YesNo :=
  if value = IDYES then YesNo.Yes else YesNo.No

/-- Three push buttons, Yes, No and Cancel (src/yes_no_cancel.rs). -/
inductive YesNoCancel where
  | Yes
  | No
  | Cancel
deriving DecidableEq

def YesNoCancel.fromResult (value : Int) : YesNoCancel :=
  if value = IDYES then YesNoCancel.Yes
  else if value = IDNO then YesNoCancel.No
  else YesNoCancel.Cancel

/-- The Options trait of src/lib.rs: a button-set flag constant together
with the From MESSAGEBOX_RESULT conversion of the supertrait. -/
class Options (T : Type) where
  flags : Nat
  fromResult : Int → T

/-- Field access helper with the type made explicit. -/
def Options.flagsOf (T : Type) [inst : Options T] : Nat := inst.flags

/-- Field access helper with the type made explicit. -/
def Options.fromResultOf (T : Type) [inst : Options T] : Int → T := inst.fromResult

instance : Options Okay := ⟨MB_OK, Okay.fromResult⟩

instance : Options OkayCancel := ⟨MB_OKCANCEL, OkayCancel.fromResult⟩

instance : Options AbortRetryIgnore := ⟨MB_ABORTRETRYIGNORE, AbortRetryIgnore.fromResult⟩

instance : Options CancelTryAgainContinue := ⟨MB_CANCELTRYCONTINUE, CancelTryAgainContinue.fromResult⟩

instance : Options RetryCancel := ⟨MB_RETRYCANCEL, RetryCancel.fromResult⟩

instance : Options YesNo := ⟨MB_YESNO, YesNo.fromResult⟩

instance : Options YesNoCancel := ⟨MB_YESNOCANCEL, YesNoCancel.fromResult⟩

/-- The Icon enumeration of src/lib.rs. -/
inductive Icon where
  | Exclamation
  | Warning
  | Information
  | Asterisk
  | Question
  | Stop
  | Error
  | Hand
deriving DecidableEq

/-- Icon style flag (Icon::style in src/lib.rs). -/
def Icon.style : Icon → Nat
  | Icon.Exclamation => MB_ICONEXCLAMATION
  | Icon.Warning => MB_ICONWARNING
  | Icon.Information => MB_ICONINFORMATION
  | Icon.Asterisk => MB_ICONASTERISK
  | Icon.Question => MB_ICONQUESTION
  | Icon.Stop => MB_ICONSTOP
  | Icon.Error => MB_ICONERROR
  | Icon.Hand => MB_ICONHAND

/-- The Modal enumeration of src/lib.rs, Application being the default. -/
inductive Modal where
  | Application
  | System
  | Task
deriving DecidableEq

/-- Numeric value of a Modal variant (the Rust enum discriminants, read
off by the as-u32 cast in MessageBox::modal). -/
def Modal.toStyle : Modal → Nat
  | Modal.Application => MB_APPLMODAL
  | Modal.System => MB_SYSTEMMODAL
  | Modal.Task => MB_TASKMODAL

/-- The DefaultButton enumeration of src/lib.rs. -/
inductive DefaultButton where
  | DefaultButton1
  | DefaultButton2
  | DefaultButton3
  | DefaultButton4
deriving DecidableEq

/-- Numeric value of a DefaultButton variant (the Rust enum discriminants,
read off by the as-u32 cast in MessageBox::default_button). -/
def DefaultButton.toStyle : DefaultButton → Nat
  | DefaultButton.DefaultButton1 => MB_DEFBUTTON1
  | DefaultButton.DefaultButton2 => MB_DEFBUTTON2
  | DefaultButton.DefaultButton3 => MB_DEFBUTTON3
  | DefaultButton.DefaultButton4 => MB_DEFBUTTON4

/-! UTF-16 transcoding, the model of str::encode_utf16 used by the owning
show.  A Rust char and a Lean Char are both Unicode scalar values; code
points below 0x10000 give one code unit, the rest a surrogate pair. -/

/-- UTF-16 code units of one scalar value. -/
def encodeUtf16Char (c : Char) : List Nat :=
  let v := c.toNat
  if v < 0x10000 then [v]
  else [0xD800 + (v - 0x10000) / 0x400, 0xDC00 + (v - 0x10000) % 0x400]

/-- UTF-16 code units of a string (str::encode_utf16). -/
def encodeUtf16 (s : String) : List Nat :=
  s.data.flatMap encodeUtf16Char

/-! The owning builder (src/lib.rs).  Strings are Lean Strings, the owner
window handle is an integer pointer value with 0 for null, the flags
accumulator is the u32 style word.  The type parameter T plays the role
of the PhantomData response marker. -/

/-- The owning MessageBox builder of src/lib.rs. -/
structure MessageBox (T : Type) where
  icon : Icon
  text : String
  title : Option String
  hwnd : Int
  flags : Nat

/-- MessageBox::new — Information icon, no title, null owner, zero flags. -/
def MessageBox.new (T : Type) (text : String) : MessageBox T :=
  { icon := Icon.Information
    text := text
    title := none
    hwnd := 0
    flags := 0 }

/-- MessageBox::icon (renamed, the field keeps the source name). -/
def MessageBox.setIcon {T : Type} (mb : MessageBox T) (icon : Icon) : MessageBox T :=
  { mb with icon := icon }

/-- MessageBox::title (renamed, the field keeps the source name). -/
def MessageBox.setTitle {T : Type} (mb : MessageBox T) (title : String) : MessageBox T :=
  { mb with title := some title }

/-- MessageBox::hwnd (renamed, the field keeps the source name). -/
def MessageBox.setHwnd {T : Type} (mb : MessageBox T) (hwnd : Int) : MessageBox T :=
  { mb with hwnd := hwnd }

/-- MessageBox::modal. -/
def MessageBox.modal {T : Type} (mb : MessageBox T) (m : Modal) : MessageBox T :=
  { mb with flags := mb.flags ||| m.toStyle }

/-- MessageBox::default_button. -/
def MessageBox.default_button {T : Type} (mb : MessageBox T) (btn : DefaultButton) : MessageBox T :=
  { mb with flags := mb.flags ||| btn.toStyle }

/-- MessageBox::default_desktop_only. -/
def MessageBox.default_desktop_only {T : Type} (mb : MessageBox T) : MessageBox T :=
  { mb with flags := mb.flags ||| MB_DEFAULT_DESKTOP_ONLY }

/-- MessageBox::right. -/
def MessageBox.right {T : Type} (mb : MessageBox T) : MessageBox T :=
  { mb with flags := mb.flags ||| MB_RIGHT }

/-- MessageBox::rtl_reading. -/
def MessageBox.rtl_reading {T : Type} (mb : MessageBox T) : MessageBox T :=
  { mb with flags := mb.flags ||| MB_RTLREADING }

/-- MessageBox::set_foreground. -/
def MessageBox.set_foreground {T : Type} (mb : MessageBox T) : MessageBox T :=
  { mb with flags := mb.flags ||| MB_SETFOREGROUND }

/-- MessageBox::topmost. -/
def MessageBox.topmost {T : Type} (mb : MessageBox T) : MessageBox T :=
  { mb with flags := mb.flags ||| MB_TOPMOST }

/-- MessageBox::service_notification. -/
def MessageBox.service_notification {T : Type} (mb : MessageBox T) : MessageBox T :=
  { mb with flags := mb.flags ||| MB_SERVICE_NOTIFICATION }

/-- MessageBox::with_help. -/
def MessageBox.with_help {T : Type} (mb : MessageBox T) : MessageBox T :=
  { mb with flags := mb.flags ||| MB_HELP }

/-- The wide-character text buffer built by MessageBox::show: the UTF-16
transcoding of text with one zero code unit appended. -/
def MessageBox.textBuf {T : Type} (mb : MessageBox T) : List Nat :=
  encodeUtf16 mb.text ++ [0]

/-- The wide-character title buffer built by MessageBox::show: the
transcoded title with one zero appended when a title was set, the empty
vector otherwise. -/
def MessageBox.titleBuf {T : Type} (mb : MessageBox T) : List Nat :=
  match mb.title with
  | some t => encodeUtf16 t ++ [0]
  | none => []

/-- The title pointer passed to MessageBoxW: null (none) when the title
buffer is empty, otherwise a pointer to the buffer. -/
def MessageBox.titleArg {T : Type} (mb : MessageBox T) : Option (List Nat) :=
  if mb.titleBuf.isEmpty then none else some mb.titleBuf

/-- The combined style word passed to MessageBoxW by show:
T::flags() | self.icon.style() | self.flags. -/
def MessageBox.styleArg {T : Type} [Options T] (mb : MessageBox T) : Nat :=
  Options.flagsOf T ||| mb.icon.style ||| mb.flags

/-- Interpretation of the MessageBoxW return code shared by both show
implementations: zero reports the last-error value, anything else goes
through the From MESSAGEBOX_RESULT conversion. -/
def interpretReturn (T : Type) [Options T] (getLastError : Nat) (returnCode : Int) : Except Nat T :=
  if returnCode = 0 then Except.error getLastError
  else Except.ok (Options.fromResultOf T returnCode)

/-- MessageBox::show of src/lib.rs.  The native MessageBoxW call is the
function parameter messageBoxW taking the owner handle, the text buffer,
the nullable title pointer and the style word; getLastError is the value
GetLastError would report. -/
def MessageBox.show {T : Type} [Options T] (mb : MessageBox T)
    (messageBoxW : Int → List Nat → Option (List Nat) → Nat → Int)
    (getLastError : Nat) : Except Nat T :=
  let returnCode := messageBoxW mb.hwnd mb.textBuf mb.titleArg mb.styleArg
  if returnCode = 0 then Except.error getLastError
  else Except.ok (Options.fromResultOf T returnCode)

/-! The raw builder (src/raw.rs).  Text and title are PCWSTR pointer
values modelled as integers, 0 being the null pointer; no transcoding
happens and show passes both pointers through verbatim. -/

/-- The raw MessageBox builder of src/raw.rs. -/
structure Raw.MessageBox (T : Type) where
  icon : Icon
  text : Int
  title : Int
  hwnd : Int
  flags : Nat

/-- raw::MessageBox::new — Information icon, null title, null owner,
zero flags. -/
def Raw.MessageBox.new (T : Type) (text : Int) : Raw.MessageBox T :=
  { icon := Icon.Information
    text := text
    title := 0
    hwnd := 0
    flags := 0 }

/-- raw::MessageBox::icon (renamed, the field keeps the source name). -/
def Raw.MessageBox.setIcon {T : Type} (mb : Raw.MessageBox T) (icon : Icon) : Raw.MessageBox T :=
  { mb with icon := icon }

/-- raw::MessageBox::title (renamed, the field keeps the source name). -/
def Raw.MessageBox.setTitle {T : Type} (mb : Raw.MessageBox T) (title : Int) : Raw.MessageBox T :=
  { mb with title := title }

/-- raw::MessageBox::hwnd (renamed, the field keeps the source name). -/
def Raw.MessageBox.setHwnd {T : Type} (mb : Raw.MessageBox T) (hwnd : Int) : Raw.MessageBox T :=
  { mb with hwnd := hwnd }

/-- raw::MessageBox::modal. -/
def Raw.MessageBox.modal {T : Type} (mb : Raw.MessageBox T) (m : Modal) : Raw.MessageBox T :=
  { mb with flags := mb.flags ||| m.toStyle }

/-- raw::MessageBox::default_button. -/
def Raw.MessageBox.default_button {T : Type} (mb : Raw.MessageBox T) (btn : DefaultButton) : Raw.MessageBox T :=
  { mb with flags := mb.flags ||| btn.toStyle }

/-- raw::MessageBox::default_desktop_only. -/
def Raw.MessageBox.default_desktop_only {T : Type} (mb : Raw.MessageBox T) : Raw.MessageBox T :=
  { mb with flags := mb.flags ||| MB_DEFAULT_DESKTOP_ONLY }

/-- raw::MessageBox::right. -/
def Raw.MessageBox.right {T : Type} (mb : Raw.MessageBox T) : Raw.MessageBox T :=
  { mb with flags := mb.flags ||| MB_RIGHT }

/-- raw::MessageBox::rtl_reading. -/
def Raw.MessageBox.rtl_reading {T : Type} (mb : Raw.MessageBox T) : Raw.MessageBox T :=
  { mb with flags := mb.flags ||| MB_RTLREADING }

/-- raw::MessageBox::set_foreground. -/
def Raw.MessageBox.set_foreground {T : Type} (mb : Raw.MessageBox T) : Raw.MessageBox T :=
  { mb with flags := mb.flags ||| MB_SETFOREGROUND }

/-- raw::MessageBox::topmost. -/
def Raw.MessageBox.topmost {T : Type} (mb : Raw.MessageBox T) : Raw.MessageBox T :=
  { mb with flags := mb.flags ||| MB_TOPMOST }

/-- raw::MessageBox::service_notification. -/
def Raw.MessageBox.service_notification {T : Type} (mb : Raw.MessageBox T) : Raw.MessageBox T :=
  { mb with flags := mb.flags ||| MB_SERVICE_NOTIFICATION }

/-- raw::MessageBox::with_help. -/
def Raw.MessageBox.with_help {T : Type} (mb : Raw.MessageBox T) : Raw.MessageBox T :=
  { mb with flags := mb.flags ||| MB_HELP }

/-- The combined style word passed to MessageBoxW by the raw show. -/
def Raw.MessageBox.styleArg {T : Type} [Options T] (mb : Raw.MessageBox T) : Nat :=
  Options.flagsOf T ||| mb.icon.style ||| mb.flags

/-- raw::MessageBox::show of src/raw.rs.  The native call takes the owner
handle, the text pointer, the title pointer and the style word. -/
def Raw.MessageBox.show {T : Type} [Options T] (mb : Raw.MessageBox T)
    (messageBoxW : Int → Int → Int → Nat → Int)
    (getLastError : Nat) : Except Nat T :=
  let returnCode := messageBoxW mb.hwnd mb.text mb.title mb.styleArg
  if returnCode = 0 then Except.error getLastError
  else Except.ok (Options.fromResultOf T returnCode)

/-! Chains of flag-touching builder calls, used to state monotonicity of
the flags accumulator over arbitrary call sequences. -/

/-- One flag-touching configuration call of either builder family. -/
inductive ConfigCall where
  | modal (m : Modal)
  | default_button (b : DefaultButton)
  | default_desktop_only
  | right
  | rtl_reading
  | set_foreground
  | topmost
  | service_notification
  | with_help
deriving DecidableEq

/-- Apply one configuration call to the owning builder. -/
def MessageBox.applyCall {T : Type} (mb : MessageBox T) : ConfigCall → MessageBox T
  | ConfigCall.modal m => mb.modal m
  | ConfigCall.default_button b => mb.default_button b
  | ConfigCall.default_desktop_only => mb.default_desktop_only
  | ConfigCall.right => mb.right
  | ConfigCall.rtl_reading => mb.rtl_reading
  | ConfigCall.set_foreground => mb.set_foreground
  | ConfigCall.topmost => mb.topmost
  | ConfigCall.service_notification => mb.service_notification
  | ConfigCall.with_help => mb.with_help

/-- Apply a chain of configuration calls to the owning builder. -/
def MessageBox.applyChain {T : Type} (mb : MessageBox T) (cs : List ConfigCall) : MessageBox T :=
  cs.foldl MessageBox.applyCall mb

/-- Apply one configuration call to the raw builder. -/
def Raw.MessageBox.applyCall {T : Type} (mb : Raw.MessageBox T) : ConfigCall → Raw.MessageBox T
  | ConfigCall.modal m => mb.modal m
  | ConfigCall.default_button b => mb.default_button b
  | ConfigCall.default_desktop_only => mb.default_desktop_only
  | ConfigCall.right => mb.right
  | ConfigCall.rtl_reading => mb.rtl_reading
  | ConfigCall.set_foreground => mb.set_foreground
  | ConfigCall.topmost => mb.topmost
  | ConfigCall.service_notification => mb.service_notification
  | ConfigCall.with_help => mb.with_help

/-- Apply a chain of configuration calls to the raw builder. -/
def Raw.MessageBox.applyChain {T : Type} (mb : Raw.MessageBox T) (cs : List ConfigCall) : Raw.MessageBox T :=
  cs.foldl Raw.MessageBox.applyCall mb

/-- The button-set flag values across all seven variants. -/
def IsButtonSetFlag (n : Nat) : Prop :=
  n = Options.flagsOf Okay ∨ n = Options.flagsOf OkayCancel ∨
  n = Options.flagsOf AbortRetryIgnore ∨ n = Options.flagsOf CancelTryAgainContinue ∨
  n = Options.flagsOf RetryCancel ∨ n = Options.flagsOf YesNo ∨
  n = Options.flagsOf YesNoCancel

instance (n : Nat) : Decidable (IsButtonSetFlag n) := by
  unfold IsButtonSetFlag
  infer_instance

/-! Helper lemmas shared by the theorems below. -/

/-- Every flag-touching builder call only ORs a constant into the flags
accumulator (owning family). -/
theorem MessageBox.applyCall_flags_or {T : Type} (mb : MessageBox T) (c : ConfigCall) :
    ∃ k, (mb.applyCall c).flags = mb.flags ||| k := by
  cases c <;> exact ⟨_, rfl⟩

/-- Every flag-touching builder call only ORs a constant into the flags
accumulator (raw family). -/
theorem Raw.MessageBox.rawApplyCall_flags_or {T : Type} (mb : Raw.MessageBox T) (c : ConfigCall) :
    ∃ k, (mb.applyCall c).flags = mb.flags ||| k := by
  cases c <;> exact ⟨_, rfl⟩

/-- C1: for every ButtonSet variant, fromResult maps each documented
result code to its documented case and every other code to the documented
fallback case: OkayCancel sends IDOK to Okay and all else to Cancel;
AbortRetryIgnore sends IDABORT to Abort, IDRETRY to Retry, all else to
Ignore; CancelTryAgainContinue sends IDTRYAGAIN to TryAgain, IDCONTINUE
to Continue, all else to Cancel; RetryCancel sends IDRETRY to Retry, all
else to Cancel; YesNo sends IDYES to Yes, all else to No; YesNoCancel
sends IDYES to Yes, IDNO to No, all else to Cancel; Okay sends every code
to its single case. -/
theorem from_result_matches_table :
    (∀ c : Int, Okay.fromResult c = Okay.mk)
    ∧ (OkayCancel.fromResult IDOK = OkayCancel.Okay
        ∧ ∀ c : Int, c ≠ IDOK → OkayCancel.fromResult c = OkayCancel.Cancel)
    ∧ (AbortRetryIgnore.fromResult IDABORT = AbortRetryIgnore.Abort
        ∧ AbortRetryIgnore.fromResult IDRETRY = AbortRetryIgnore.Retry
        ∧ ∀ c : Int, c ≠ IDABORT → c ≠ IDRETRY →
            AbortRetryIgnore.fromResult c = AbortRetryIgnore.Ignore)
    ∧ (CancelTryAgainContinue.fromResult IDTRYAGAIN = CancelTryAgainContinue.TryAgain
        ∧ CancelTryAgainContinue.fromResult IDCONTINUE = CancelTryAgainContinue.Continue
        ∧ ∀ c : Int, c ≠ IDTRYAGAIN → c ≠ IDCONTINUE →
            CancelTryAgainContinue.fromResult c = CancelTryAgainContinue.Cancel)
    ∧ (RetryCancel.fromResult IDRETRY = RetryCancel.Retry
        ∧ ∀ c : Int, c ≠ IDRETRY → RetryCancel.fromResult c = RetryCancel.Cancel)
    ∧ (YesNo.fromResult IDYES = YesNo.Yes
        ∧ ∀ c : Int, c ≠ IDYES → YesNo.fromResult c = YesNo.No)
    ∧ (YesNoCancel.fromResult IDYES = YesNoCancel.Yes
        ∧ YesNoCancel.fromResult IDNO = YesNoCancel.No
        ∧ ∀ c : Int, c ≠ IDYES → c ≠ IDNO →
            YesNoCancel.fromResult c = YesNoCancel.Cancel) := by
  refine ⟨fun c => rfl, ⟨by decide, fun c h => ?_⟩, ⟨by decide, by decide, fun c h1 h2 => ?_⟩,
    ⟨by decide, by decide, fun c h1 h2 => ?_⟩, ⟨by decide, fun c h => ?_⟩,
    ⟨by decide, fun c h => ?_⟩, ⟨by decide, by decide, fun c h1 h2 => ?_⟩⟩ <;>
    simp_all [OkayCancel.fromResult, AbortRetryIgnore.fromResult,
      CancelTryAgainContinue.fromResult, RetryCancel.fromResult,
      YesNo.fromResult, YesNoCancel.fromResult]

/-- Witness for C1: the fallback arms evaluated at the concrete
unrecognized code 999. -/
theorem from_result_matches_table_witness :
    OkayCancel.fromResult 999 = OkayCancel.Cancel
    ∧ AbortRetryIgnore.fromResult 999 = AbortRetryIgnore.Ignore
    ∧ CancelTryAgainContinue.fromResult 999 = CancelTryAgainContinue.Cancel
    ∧ RetryCancel.fromResult 999 = RetryCancel.Cancel
    ∧ YesNo.fromResult 999 = YesNo.No
    ∧ YesNoCancel.fromResult 999 = YesNoCancel.Cancel := by
  have h := from_result_matches_table
  exact ⟨h.2.1.2 999 (by decide), h.2.2.1.2.2 999 (by decide) (by decide),
    h.2.2.2.1.2.2 999 (by decide) (by decide), h.2.2.2.2.1.2 999 (by decide),
    h.2.2.2.2.2.1.2 999 (by decide), h.2.2.2.2.2.2.2.2 999 (by decide) (by decide)⟩

/-- C2: for every ButtonSet variant, fromResult is total: every result
code is sent to some case of the enumeration. -/
theorem from_result_total (c : Int) :
    Okay.fromResult c = Okay.mk
    ∧ (OkayCancel.fromResult c = OkayCancel.Okay
        ∨ OkayCancel.fromResult c = OkayCancel.Cancel)
    ∧ (AbortRetryIgnore.fromResult c = AbortRetryIgnore.Abort
        ∨ AbortRetryIgnore.fromResult c = AbortRetryIgnore.Retry
        ∨ AbortRetryIgnore.fromResult c = AbortRetryIgnore.Ignore)
    ∧ (CancelTryAgainContinue.fromResult c = CancelTryAgainContinue.Cancel
        ∨ CancelTryAgainContinue.fromResult c = CancelTryAgainContinue.TryAgain
        ∨ CancelTryAgainContinue.fromResult c = CancelTryAgainContinue.Continue)
    ∧ (RetryCancel.fromResult c = RetryCancel.Retry
        ∨ RetryCancel.fromResult c = RetryCancel.Cancel)
    ∧ (YesNo.fromResult c = YesNo.Yes ∨ YesNo.fromResult c = YesNo.No)
    ∧ (YesNoCancel.fromResult c = YesNoCancel.Yes
        ∨ YesNoCancel.fromResult c = YesNoCancel.No
        ∨ YesNoCancel.fromResult c = YesNoCancel.Cancel) := by
  unfold Okay.fromResult OkayCancel.fromResult AbortRetryIgnore.fromResult
    CancelTryAgainContinue.fromResult RetryCancel.fromResult YesNo.fromResult
    YesNoCancel.fromResult
  refine ⟨rfl, ?_, ?_, ?_, ?_, ?_, ?_⟩ <;> (repeat' split) <;> simp

/-- C3: in both families, show reports the last-error value exactly when
the native call returns zero, any error it reports is that last-error
value, and every non-zero native return x yields Ok of the active
ButtonSet conversion applied to x. -/
theorem show_error_iff_zero {T : Type} [Options T] (mb : MessageBox T) (rmb : Raw.MessageBox T)
    (f : Int → List Nat → Option (List Nat) → Nat → Int)
    (g : Int → Int → Int → Nat → Int) (le rle : Nat) :
    ((mb.show f le = Except.error le ↔ f mb.hwnd mb.textBuf mb.titleArg mb.styleArg = 0)
      ∧ (∀ e, mb.show f le = Except.error e → e = le)
      ∧ (∀ x : Int, f mb.hwnd mb.textBuf mb.titleArg mb.styleArg = x → x ≠ 0 →
          mb.show f le = Except.ok (Options.fromResultOf T x)))
    ∧ ((rmb.show g rle = Except.error rle ↔ g rmb.hwnd rmb.text rmb.title rmb.styleArg = 0)
      ∧ (∀ e, rmb.show g rle = Except.error e → e = rle)
      ∧ (∀ x : Int, g rmb.hwnd rmb.text rmb.title rmb.styleArg = x → x ≠ 0 →
          rmb.show g rle = Except.ok (Options.fromResultOf T x))) := by
  refine ⟨⟨?_, ?_, ?_⟩, ⟨?_, ?_, ?_⟩⟩
  · simp only [MessageBox.show]
    split <;> simp_all
  · intro e he
    simp only [MessageBox.show] at he
    split at he <;> simp_all
  · intro x hx hxne
    simp only [MessageBox.show]
    rw [hx]
    simp [hxne]
  · simp only [Raw.MessageBox.show]
    split <;> simp_all
  · intro e he
    simp only [Raw.MessageBox.show] at he
    split at he <;> simp_all
  · intro x hx hxne
    simp only [Raw.MessageBox.show]
    rw [hx]
    simp [hxne]

/-- Witness for C3: a simulated return of 2 under OkayCancel yields
Ok Cancel, a simulated zero return yields the injected last-error 5. -/
theorem show_error_iff_zero_witness :
    (MessageBox.new OkayCancel "hi").show (fun _ _ _ _ => 2) 5 = Except.ok OkayCancel.Cancel
    ∧ (Raw.MessageBox.new OkayCancel 7).show (fun _ _ _ _ => 0) 5 = Except.error 5 := by
  have h := show_error_iff_zero (MessageBox.new OkayCancel "hi") (Raw.MessageBox.new OkayCancel 7)
    (fun _ _ _ _ => 2) (fun _ _ _ _ => 0) 5 5
  refine ⟨?_, h.2.1.mpr rfl⟩
  have h2 := h.1.2.2 2 rfl (by decide)
  have hc : Options.fromResultOf OkayCancel 2 = OkayCancel.Cancel := by decide
  rw [hc] at h2
  exact h2

/-- C4: the style word each show passes to the native call is exactly
the bitwise OR of the ButtonSet flags, the icon flag and the accumulated
builder flags: the styleArg field equals that OR, and the outcome of show
depends on the native function only through its value at that OR (both
families). -/
theorem show_style_is_or {T : Type} [Options T] (mb : MessageBox T) (rmb : Raw.MessageBox T)
    (f fa : Int → List Nat → Option (List Nat) → Nat → Int)
    (g ga : Int → Int → Int → Nat → Int) (le rle : Nat) :
    (mb.styleArg = Options.flagsOf T ||| mb.icon.style ||| mb.flags)
    ∧ (f mb.hwnd mb.textBuf mb.titleArg (Options.flagsOf T ||| mb.icon.style ||| mb.flags)
        = fa mb.hwnd mb.textBuf mb.titleArg (Options.flagsOf T ||| mb.icon.style ||| mb.flags)
        → mb.show f le = mb.show fa le)
    ∧ (rmb.styleArg = Options.flagsOf T ||| rmb.icon.style ||| rmb.flags)
    ∧ (g rmb.hwnd rmb.text rmb.title (Options.flagsOf T ||| rmb.icon.style ||| rmb.flags)
        = ga rmb.hwnd rmb.text rmb.title (Options.flagsOf T ||| rmb.icon.style ||| rmb.flags)
        → rmb.show g rle = rmb.show ga rle) := by
  refine ⟨rfl, fun h => ?_, rfl, fun h => ?_⟩
  · simp only [MessageBox.show, MessageBox.styleArg]
    rw [h]
  · simp only [Raw.MessageBox.show, Raw.MessageBox.styleArg]
    rw [h]

/-- Witness for C4: two native functions agreeing at the composed style
word give the same show outcome at a concrete builder. -/
theorem show_style_is_or_witness :
    (MessageBox.new YesNo "a").show (fun _ _ _ _ => 6) 3
      = (MessageBox.new YesNo "a").show (fun _ _ _ s => if s = MB_YESNO ||| MB_ICONASTERISK then 6 else 0) 3 := by
  have h := show_style_is_or (MessageBox.new YesNo "a") (Raw.MessageBox.new YesNo 0)
    (fun _ _ _ _ => 6) (fun _ _ _ s => if s = MB_YESNO ||| MB_ICONASTERISK then 6 else 0)
    (fun _ _ _ _ => 1) (fun _ _ _ _ => 1) 3 3
  exact h.2.1 (by decide)

/-- C5: the owning show transcodes the text to UTF-16 with exactly one
terminating zero appended; a set title is likewise transcoded with one
terminating zero, an unset title becomes the null pointer; and show
passes exactly these buffers to the native call. -/
theorem show_transcodes_utf16 {T : Type} [Options T] (mb : MessageBox T) :
    mb.textBuf = encodeUtf16 mb.text ++ [0]
    ∧ (∀ t, mb.title = some t → mb.titleArg = some (encodeUtf16 t ++ [0]))
    ∧ (mb.title = none → mb.titleArg = none)
    ∧ (∀ f le, mb.show f le
        = interpretReturn T le (f mb.hwnd mb.textBuf mb.titleArg mb.styleArg)) := by
  refine ⟨rfl, ?_, ?_, fun f le => rfl⟩
  · intro t ht
    simp [MessageBox.titleArg, MessageBox.titleBuf, ht]
  · intro ht
    simp [MessageBox.titleArg, MessageBox.titleBuf, ht]

/-- Witness for C5: concrete builders with a set and an unset title. -/
theorem show_transcodes_utf16_witness :
    ((MessageBox.new YesNo "A").setTitle "B").titleArg = some [66, 0]
    ∧ (MessageBox.new YesNo "A").titleArg = none := by
  have h1 := show_transcodes_utf16 ((MessageBox.new YesNo "A").setTitle "B")
  have h2 := show_transcodes_utf16 (MessageBox.new YesNo "A")
  refine ⟨?_, h2.2.2.1 rfl⟩
  have hb := h1.2.1 "B" rfl
  rw [hb]
  rfl

/-- C6: a builder made by the generic new constructor (owning or raw)
starts with the Information icon, no title, null owner and zero flags;
Application modality is the zero flag; and the composed style under
defaults is the ButtonSet flags ORed with only the Information icon
flag. -/
theorem new_defaults {T : Type} [Options T] (text : String) (ptr : Int) :
    ((MessageBox.new T text).icon = Icon.Information
      ∧ (MessageBox.new T text).title = none
      ∧ (MessageBox.new T text).hwnd = 0
      ∧ (MessageBox.new T text).flags = 0
      ∧ Modal.toStyle Modal.Application = 0
      ∧ (MessageBox.new T text).styleArg = Options.flagsOf T ||| Icon.style Icon.Information)
    ∧ ((Raw.MessageBox.new T ptr).icon = Icon.Information
      ∧ (Raw.MessageBox.new T ptr).title = 0
      ∧ (Raw.MessageBox.new T ptr).hwnd = 0
      ∧ (Raw.MessageBox.new T ptr).flags = 0
      ∧ (Raw.MessageBox.new T ptr).styleArg = Options.flagsOf T ||| Icon.style Icon.Information) := by
  refine ⟨⟨rfl, rfl, rfl, rfl, rfl, ?_⟩, ⟨rfl, rfl, rfl, rfl, ?_⟩⟩ <;>
    simp [MessageBox.styleArg, Raw.MessageBox.styleArg, MessageBox.new, Raw.MessageBox.new]

/-- C7: the four flag families are pairwise bitwise-disjoint: any icon
flag, any button-set flag of the seven variants, any modality flag and
any default-button flag drawn from two different families AND to zero. -/
theorem flag_families_disjoint (i : Icon) (m : Modal) (d : DefaultButton) (b : Nat)
    (hb : IsButtonSetFlag b) :
    i.style &&& b = 0 ∧ i.style &&& m.toStyle = 0 ∧ i.style &&& d.toStyle = 0
    ∧ b &&& m.toStyle = 0 ∧ b &&& d.toStyle = 0 ∧ m.toStyle &&& d.toStyle = 0 := by
  rcases hb with rfl | rfl | rfl | rfl | rfl | rfl | rfl <;>
    cases i <;> cases m <;> cases d <;> decide

/-- Witness for C7 at one concrete member of each family. -/
theorem flag_families_disjoint_witness :
    Icon.style Icon.Question &&& Options.flagsOf YesNo = 0
    ∧ Icon.style Icon.Question &&& Modal.toStyle Modal.System = 0
    ∧ Icon.style Icon.Question &&& DefaultButton.toStyle DefaultButton.DefaultButton2 = 0
    ∧ Options.flagsOf YesNo &&& Modal.toStyle Modal.System = 0
    ∧ Options.flagsOf YesNo &&& DefaultButton.toStyle DefaultButton.DefaultButton2 = 0
    ∧ Modal.toStyle Modal.System &&& DefaultButton.toStyle DefaultButton.DefaultButton2 = 0 :=
  flag_families_disjoint Icon.Question Modal.System DefaultButton.DefaultButton2
    (Options.flagsOf YesNo) (by decide)

/-- C8: the icon flag mapping aliases exactly as the platform does:
Warning and Exclamation share a flag, Information and Asterisk share a
flag, Stop, Error and Hand share a flag, and Question and the three alias
groups have pairwise distinct flags. -/
theorem icon_style_aliasing :
    Icon.style Icon.Warning = Icon.style Icon.Exclamation
    ∧ Icon.style Icon.Information = Icon.style Icon.Asterisk
    ∧ Icon.style Icon.Stop = Icon.style Icon.Error
    ∧ Icon.style Icon.Error = Icon.style Icon.Hand
    ∧ Icon.style Icon.Question ≠ Icon.style Icon.Warning
    ∧ Icon.style Icon.Question ≠ Icon.style Icon.Information
    ∧ Icon.style Icon.Question ≠ Icon.style Icon.Stop
    ∧ Icon.style Icon.Warning ≠ Icon.style Icon.Information
    ∧ Icon.style Icon.Warning ≠ Icon.style Icon.Stop
    ∧ Icon.style Icon.Information ≠ Icon.style Icon.Stop := by decide

/-- C9: the flags accumulator is monotone: along any chain of
flag-touching configuration calls no style bit is ever cleared, and
modal Application (flag zero) leaves the accumulator unchanged, in both
families. -/
theorem flags_accumulator_monotone {T : Type} (mb : MessageBox T) (rmb : Raw.MessageBox T)
    (cs : List ConfigCall) (i : Nat) :
    (mb.flags.testBit i = true → ((mb.applyChain cs).flags.testBit i = true))
    ∧ ((mb.modal Modal.Application).flags = mb.flags)
    ∧ (rmb.flags.testBit i = true → ((rmb.applyChain cs).flags.testBit i = true))
    ∧ ((rmb.modal Modal.Application).flags = rmb.flags) := by
  refine ⟨?_, ?_, ?_, ?_⟩
  · induction cs generalizing mb with
    | nil => exact id
    | cons c cs ih =>
      intro h
      have hstep : (mb.applyCall c).flags.testBit i = true := by
        obtain ⟨k, hk⟩ := MessageBox.applyCall_flags_or mb c
        rw [hk, Nat.testBit_or, h]
        rfl
      exact ih (mb.applyCall c) hstep
  · simp [MessageBox.modal, Modal.toStyle, MB_APPLMODAL]
  · induction cs generalizing rmb with
    | nil => exact id
    | cons c cs ih =>
      intro h
      have hstep : (rmb.applyCall c).flags.testBit i = true := by
        obtain ⟨k, hk⟩ := Raw.MessageBox.rawApplyCall_flags_or rmb c
        rw [hk, Nat.testBit_or, h]
        rfl
      exact ih (rmb.applyCall c) hstep
  · simp [Raw.MessageBox.modal, Modal.toStyle, MB_APPLMODAL]

/-- Witness for C9: the topmost bit (bit 18) survives a later right and
modal System chain on a concrete builder. -/
theorem flags_accumulator_monotone_witness :
    (((MessageBox.new YesNo "x").topmost).applyChain
      [ConfigCall.right, ConfigCall.modal Modal.System]).flags.testBit 18 = true := by
  have h := flags_accumulator_monotone ((MessageBox.new YesNo "x").topmost)
    (Raw.MessageBox.new YesNo 0) [ConfigCall.right, ConfigCall.modal Modal.System] 18
  exact h.1 (by decide)

/-- C10: an explicitly empty title is distinguished from an unset one:
the null check is on the encoded buffer, the empty title encodes to the
one-element buffer holding only the terminator and is passed as a
non-null pointer, and the null pointer is passed exactly when the title
was never set. -/
theorem title_empty_vs_unset {T : Type} (text : String) (mb : MessageBox T) :
    ((MessageBox.new T text).setTitle "").titleArg = some [0]
    ∧ (MessageBox.new T text).titleArg = none
    ∧ (mb.titleArg = none ↔ mb.title = none) := by
  refine ⟨rfl, rfl, ?_⟩
  cases h : mb.title <;> simp [MessageBox.titleArg, MessageBox.titleBuf, h]
